import Mathlib

/-!
Shallow embedding of the storefront application in `app.py`: the four
persisted entities (User, News, Product, Order), the order-placement
route `create_order`, the catalog filter, the admin mutations and the
login flow, together with theorems about them.

Machine integers of the source are modelled as `Int`/`Nat`; the
floating-point `price` column is modelled as `ℚ` (every concrete price
used below is exactly representable); the werkzeug `secure_filename`
sanitizer and `check_password_hash` are external library code and enter
as function parameters.
-/

set_option autoImplicit false

namespace MyApp

/-- `User` row: unique username/email, password hash, admin flag. -/
structure User where
  id : Nat
  username : String
  email : String
  password_hash : String
  is_admin : Bool
deriving Repr, DecidableEq

/-- `News` row: title, body, optional stored image path, published flag. -/
structure News where
  id : Nat
  title : String
  content : String
  image : Option String
  is_published : Bool
deriving Repr, DecidableEq

/-- `Product` row of `app.py`: name, description, price, optional image
path, nullable category, active flag and stock count. -/
structure Product where
  id : Nat
  name : String
  description : String
  price : ℚ
  image : Option String
  category : Option String
  is_active : Bool
  stock_quantity : Int
deriving Repr, DecidableEq

/-- `Product.in_stock`: `return self.is_active and self.stock_quantity > 0`. -/
def Product.in_stock (p : Product) : Bool :=
  p.is_active && decide (0 < p.stock_quantity)

/-- `Order` row: contact fields, optional owning user, the referenced
product, quantity, status string and free-text notes. -/
structure Order where
  id : Nat
  customer_name : String
  customer_phone : String
  customer_email : Option String
  user_id : Option Nat
  product_id : Nat
  quantity : Int
  status : String
  notes : Option String
deriving Repr, DecidableEq

/-- The relational store backing the application: the four tables plus
autoincrement counters for the primary keys. -/
structure Store where
  users : List User
  news : List News
  products : List Product
  orders : List Order
  next_order_id : Nat
  next_news_id : Nat
  next_product_id : Nat
deriving Repr, DecidableEq

/-- Primary-key lookup on the product table (`Product.query.get`). -/
def findProduct (s : Store) (pid : Nat) : Option Product :=
  s.products.find? (fun p => p.id == pid)

/-- Python truthiness of an optional string form field: `None` and the
empty string are falsy. -/
def pyTruthy : Option String → Bool
  | none => false
  | some s => s != ""

/-- `Order.total_price`: `self.product.price * self.quantity` when the
referenced product row exists, else `0`; computed against the store at
read time, never stored. -/
def Order.total_price (s : Store) (o : Order) : ℚ :=
  match findProduct s o.product_id with
  | some p => p.price * (o.quantity : ℚ)
  | none => 0

/-- Outcome of a POST to `/order/create/<product_id>`. -/
inductive CreateOrderResult where
  | notFound
  | outOfStock
  | missingFields
  | insufficientStock (available : Int)
  | created (o : Order)
deriving Repr, DecidableEq

/-- The `create_order` route of `app.py` (POST branch): 404 on a missing
product, redirect when the product is not in stock, validation of the
required contact fields, clamping of a sub-1 quantity up to 1, rejection
when the quantity exceeds `stock_quantity`, then the commit of a new
`Order` row with status `"новый"`; an authenticated user contributes
`user_id` and possibly `customer_email`. -/
def create_order (s : Store) (pid : Nat) (current_user : Option User)
    (customer_name customer_phone : String) (customer_email : Option String)
    (quantity : Int) (notes : String) : Store × CreateOrderResult :=
  match findProduct s pid with
  | none => (s, .notFound)
  | some product =>
    if !product.in_stock then (s, .outOfStock)
    else if customer_name == "" || customer_phone == "" then (s, .missingFields)
    else
      let q := if quantity < 1 then 1 else quantity
      if product.stock_quantity < q then (s, .insufficientStock product.stock_quantity)
      else
        let email :=
          match current_user with
          | some u => if !pyTruthy customer_email && u.email != "" then some u.email
                      else customer_email
          | none => customer_email
        let o : Order :=
          { id := s.next_order_id
            customer_name := customer_name
            customer_phone := customer_phone
            customer_email := email
            user_id := current_user.map (fun u => u.id)
            product_id := pid
            quantity := q
            status := "новый"
            notes := some notes }
        ({ s with orders := s.orders ++ [o], next_order_id := s.next_order_id + 1 },
         .created o)

/-- The order-placement operation as §4.2 of the spec words it: the
requested quantity is clamped to at least 1 and at most current stock and
the operation then proceeds with the clamped value, never refusing an
over-stock request. Written for comparison with `create_order`. -/
def create_order_claimed (s : Store) (pid : Nat) (current_user : Option User)
    (customer_name customer_phone : String) (customer_email : Option String)
    (quantity : Int) (notes : String) : Store × CreateOrderResult :=
  match findProduct s pid with
  | none => (s, .notFound)
  | some product =>
    if !product.in_stock then (s, .outOfStock)
    else if customer_name == "" || customer_phone == "" then (s, .missingFields)
    else
      let q := max 1 (min quantity product.stock_quantity)
      let email :=
        match current_user with
        | some u => if !pyTruthy customer_email && u.email != "" then some u.email
                    else customer_email
        | none => customer_email
      let o : Order :=
        { id := s.next_order_id
          customer_name := customer_name
          customer_phone := customer_phone
          customer_email := email
          user_id := current_user.map (fun u => u.id)
          product_id := pid
          quantity := q
          status := "новый"
          notes := some notes }
      ({ s with orders := s.orders ++ [o], next_order_id := s.next_order_id + 1 },
       .created o)

/-- A concrete active product with stock 5 and price 100, as in the §8
end-to-end scenario. -/
def demoProduct : Product :=
  { id := 1, name := "Ноутбук", description := "", price := 100, image := none,
    category := some "Электроника", is_active := true, stock_quantity := 5 }

/-- A store seeded with just `demoProduct`. -/
def demoStore : Store :=
  { users := [], news := [], products := [demoProduct], orders := [],
    next_order_id := 1, next_news_id := 1, next_product_id := 2 }

/-- The §8 scenario order: quantity 3 of `demoProduct`. -/
def demoOrder : Order :=
  { id := 1, customer_name := "Иван", customer_phone := "+79001234567",
    customer_email := none, user_id := none, product_id := 1, quantity := 3,
    status := "новый", notes := none }

/-- The order that `create_order` commits in the §8 scenario run used by
the witnesses below (quantity 3 against `demoStore`). -/
def demoCommitted : Order :=
  { id := 1, customer_name := "Иван", customer_phone := "+79001234567",
    customer_email := none, user_id := none, product_id := 1, quantity := 3,
    status := "новый", notes := some "" }

/-- An inactive product with positive stock, used to probe the catalog's
baseline `is_active` filter. -/
def demoInactive : Product :=
  { id := 2, name := "Архивный товар", description := "", price := 50,
    image := none, category := some "Книги", is_active := false,
    stock_quantity := 3 }

/-- The `min_price` step of the catalog query: `if min_price:` is false
for an absent parameter and for `0.0`, otherwise the query keeps products
with `price >= min_price`. -/
def applyMinPrice (mp : Option ℚ) (q : List Product) : List Product :=
  match mp with
  | none => q
  | some v => if v = 0 then q else q.filter (fun p => decide (v ≤ p.price))

/-- The `max_price` step of the catalog query, symmetric to
`applyMinPrice`. -/
def applyMaxPrice (mp : Option ℚ) (q : List Product) : List Product :=
  match mp with
  | none => q
  | some v => if v = 0 then q else q.filter (fun p => decide (p.price ≤ v))

/-- The filter composition of the `catalog` route: an optional non-empty
category, the two truthy price bounds, and then either the in-stock
condition (`in_stock == '1'`) or the baseline `is_active` restriction.
Ordering and the fixed-size page window do not change which products can
appear and are not modelled. -/
def catalog_filter (ps : List Product) (category : String)
    (min_price max_price : Option ℚ) (in_stock : Option String) : List Product :=
  let q := if category == "" then ps
           else ps.filter (fun p => p.category == some category)
  let q := applyMinPrice min_price q
  let q := applyMaxPrice max_price q
  if in_stock == some "1" then
    q.filter (fun p => p.is_active && decide (0 < p.stock_quantity))
  else
    q.filter (fun p => p.is_active)

/-- Catalog filtering as §8 of the spec words it: a product appears iff
it satisfies every supplied filter, and an omitted filter imposes no
constraint at all.  Written for comparison with `catalog_filter`. -/
def catalog_filter_claimed (ps : List Product) (category : String)
    (min_price max_price : Option ℚ) (in_stock : Option String) : List Product :=
  ps.filter (fun p =>
    (category == "" || p.category == some category) &&
    (match min_price with | none => true | some v => decide (v ≤ p.price)) &&
    (match max_price with | none => true | some v => decide (p.price ≤ v)) &&
    (if in_stock == some "1" then p.is_active && decide (0 < p.stock_quantity)
     else true))

/-- Outcome of a POST to `/admin/product/delete/<product_id>`. -/
inductive DeleteProductResult where
  | accessDenied
  | notFound
  | blocked (orders_count : Nat)
  | deleted
deriving Repr, DecidableEq

/-- The `admin_delete_product` route: admin gate, 404 on a missing
product, then the referential check — when any order references the
product the deletion is refused before any mutation, otherwise the row is
removed. -/
def admin_delete_product (s : Store) (current_user : User) (pid : Nat) :
    Store × DeleteProductResult :=
  if !current_user.is_admin then (s, .accessDenied)
  else
    match findProduct s pid with
    | none => (s, .notFound)
    | some _ =>
      let orders_count := (s.orders.filter (fun o => o.product_id == pid)).length
      if 0 < orders_count then (s, .blocked orders_count)
      else ({ s with products := s.products.filter (fun p => p.id != pid) },
            .deleted)

/-- The fixed status enumeration of the admin order endpoint:
`['новый', 'в обработке', 'выполнен', 'отменен']` (new, processing, done,
cancelled). -/
def validStatuses : List String := ["новый", "в обработке", "выполнен", "отменен"]

/-- Status step of `admin_order_detail`: the submitted status is stored
only when it is truthy and a member of `validStatuses`. -/
def apply_status_update (new_status : Option String) (o : Order) : Order :=
  match new_status with
  | some ns => if ns ≠ "" ∧ ns ∈ validStatuses then { o with status := ns } else o
  | none => o

/-- Notes step of `admin_order_detail`: a truthy admin note is appended
to existing truthy notes (never overwriting them), else stored fresh. -/
def append_admin_note (now : String) (admin_notes : String) (o : Order) : Order :=
  if admin_notes ≠ "" then
    match o.notes with
    | some n =>
      if n ≠ "" then
        { o with notes := some (n ++ "\n[Админ " ++ now ++ "]: " ++ admin_notes) }
      else { o with notes := some ("[Админ " ++ now ++ "]: " ++ admin_notes) }
    | none => { o with notes := some ("[Админ " ++ now ++ "]: " ++ admin_notes) }
  else o

/-- The whole per-order mutation of a POST to `/admin/order/<order_id>`. -/
def update_order (now : String) (new_status : Option String)
    (admin_notes : String) (o : Order) : Order :=
  append_admin_note now admin_notes (apply_status_update new_status o)

/-- Replace the first row with the given primary key (the ORM `get`
returns at most one row per key). -/
def update_first (oid : Nat) (f : Order → Order) : List Order → List Order
  | [] => []
  | o :: rest => if o.id == oid then f o :: rest else o :: update_first oid f rest

/-- The `admin_order_detail` route (POST branch): admin gate, then the
status/notes mutation of the addressed order. -/
def admin_order_detail (s : Store) (current_user : User) (oid : Nat)
    (new_status : Option String) (admin_notes : String) (now : String) : Store :=
  if !current_user.is_admin then s
  else { s with orders := update_first oid (update_order now new_status admin_notes)
                            s.orders }

/-- Image field written by `admin_create_news`: a truthy upload is stored
under `uploads/news/` with the timestamp prefixed to the sanitized name. -/
def news_create_image_field (sanitize : String → String) (ts : String)
    (image : Option String) : Option String :=
  match image with
  | some f => if f != "" then some ("uploads/news/" ++ (ts ++ "_" ++ sanitize f))
              else none
  | none => none

/-- Image field written by `admin_edit_news`: a truthy upload replaces
the stored path with a timestamp-prefixed one, otherwise the old value is
kept. -/
def news_edit_image_field (sanitize : String → String) (ts : String)
    (old : Option String) (image : Option String) : Option String :=
  match image with
  | some f => if f != "" then some ("uploads/news/" ++ (ts ++ "_" ++ sanitize f))
              else old
  | none => old

/-- Image field written by `admin_create_product`: a truthy upload is
stored under `uploads/products/` under just its sanitized name — this
path computes no timestamp. -/
def product_create_image_field (sanitize : String → String)
    (image : Option String) : Option String :=
  match image with
  | some f => if f != "" then some ("uploads/products/" ++ sanitize f) else none
  | none => none

/-- Image field written by `admin_edit_product`: like the news paths, a
truthy upload is stored timestamp-prefixed. -/
def product_edit_image_field (sanitize : String → String) (ts : String)
    (old : Option String) (image : Option String) : Option String :=
  match image with
  | some f => if f != "" then
                some ("uploads/products/" ++ (ts ++ "_" ++ sanitize f))
              else old
  | none => old

/-- The upload naming rule as §6 of the spec words it: every stored
upload sits under its directory with the timestamp prefixed to the
sanitized filename.  Written for comparison with the four image-field
functions. -/
def claimed_upload_name (dir : String) (sanitize : String → String)
    (ts fname : String) : String :=
  dir ++ (ts ++ "_" ++ sanitize fname)

/-- The `admin_create_product` route (POST branch): admin gate, then the
insertion of a new always-active product whose image field is computed by
`product_create_image_field`. -/
def admin_create_product (sanitize : String → String) (s : Store)
    (current_user : User) (name description : String) (price : ℚ)
    (category : Option String) (stock_quantity : Int)
    (image : Option String) : Store :=
  if !current_user.is_admin then s
  else
    let prod : Product :=
      { id := s.next_product_id, name := name, description := description,
        price := price, image := product_create_image_field sanitize image,
        category := category, is_active := true,
        stock_quantity := stock_quantity }
    { s with products := s.products ++ [prod],
             next_product_id := s.next_product_id + 1 }

/-- The `admin_create_news` route (POST branch): admin gate, required
fields, then the insertion of a news row whose image field is computed by
`news_create_image_field`. -/
def admin_create_news (sanitize : String → String) (s : Store)
    (current_user : User) (ts : String) (title content : String)
    (image : Option String) (is_published : Bool) : Store :=
  if !current_user.is_admin then s
  else if title == "" || content == "" then s
  else
    let n : News :=
      { id := s.next_news_id, title := title, content := content,
        image := news_create_image_field sanitize ts image,
        is_published := is_published }
    { s with news := s.news ++ [n], next_news_id := s.next_news_id + 1 }

/-- Username lookup of the login route
(`User.query.filter_by(username=username).first()`). -/
def findUserByUsername (s : Store) (username : String) : Option User :=
  s.users.find? (fun u => u.username == username)

/-- Outcome of a POST to `/login`: either a session for the user is
established with a success flash, or no session is established, the
failure flash is shown and the login page is re-rendered. -/
inductive LoginResult where
  | alreadyAuthenticated
  | loggedIn (user_id : Nat) (flash : String)
  | failed (flash : String)
deriving Repr, DecidableEq

/-- The `login` route (POST branch): an authenticated visitor is
redirected; otherwise the user row is looked up by username and the
password hash checked (`check_password_hash` enters as the `checkHash`
parameter); both a missing user and a wrong password fall to the same
`else` branch. -/
def login (checkHash : String → String → Bool) (s : Store)
    (current_user : Option User) (username password : String) : LoginResult :=
  match current_user with
  | some _ => .alreadyAuthenticated
  | none =>
    match findUserByUsername s username with
    | some u =>
      if checkHash u.password_hash password then
        .loggedIn u.id "Вы успешно вошли в систему"
      else .failed "Неверное имя пользователя или пароль"
    | none => .failed "Неверное имя пользователя или пароль"

/-- A registered user for the login witnesses. -/
def demoUser : User :=
  { id := 7, username := "admin", email := "admin@example.com",
    password_hash := "hash:admin123", is_admin := true }

/-- A store holding `demoUser`, `demoProduct` and the §8 order. -/
def demoStoreWithOrder : Store :=
  { users := [demoUser], news := [], products := [demoProduct],
    orders := [demoOrder], next_order_id := 2, next_news_id := 1,
    next_product_id := 2 }

/-- C5: for every product, the derived attribute `in_stock` holds exactly
when the product is active and its stock count is positive, over all four
combinations of the two fields. -/
theorem in_stock_iff_active_and_positive_stock (p : Product) :
    p.in_stock = true ↔ (p.is_active = true ∧ 0 < p.stock_quantity) := by
  simp [Product.in_stock]

/-- C2: `Order.total_price` is computed at read time as the referenced
product's price in the store being read, times the order's quantity; so
it tracks the product's current price, whatever the price was when the
order was placed.  In the §8 scenario (price 100, quantity 3) it is 300. -/
theorem total_price_is_current_price_times_quantity
    (s : Store) (o : Order) (p : Product)
    (hp : findProduct s o.product_id = some p) :
    Order.total_price s o = p.price * (o.quantity : ℚ) := by
  unfold Order.total_price
  rw [hp]

/-- Witness for C2: the §8 scenario, price 100 and quantity 3 give 300. -/
theorem total_price_witness :
    Order.total_price demoStore demoOrder = 300 := by
  have h := total_price_is_current_price_times_quantity demoStore demoOrder
    demoProduct (by rfl)
  rw [h]
  norm_num [demoProduct, demoOrder]

/-- C1: whenever `create_order` commits an order, the committed quantity
lies between 1 and the referenced product's stock count at creation time:
an over-stock request is never turned into a committed order. -/
theorem create_order_quantity_bounds
    (s : Store) (pid : Nat) (cu : Option User) (name phone : String)
    (email : Option String) (qty : Int) (notes : String) (p : Product) (o : Order)
    (hp : findProduct s pid = some p)
    (hc : (create_order s pid cu name phone email qty notes).2 = .created o) :
    1 ≤ o.quantity ∧ o.quantity ≤ p.stock_quantity := by
  unfold create_order at hc
  rw [hp] at hc
  by_cases h1 : p.in_stock = true
  · simp only [h1, Bool.not_true, Bool.false_eq_true, if_false] at hc
    by_cases h2 : (name == "" || phone == "") = true
    · simp [h2] at hc
    · simp only [h2, Bool.false_eq_true, if_false] at hc
      by_cases h3 : p.stock_quantity < (if qty < 1 then 1 else qty)
      · simp [h3] at hc
      · simp only [h3, if_false] at hc
        have hq : o.quantity = (if qty < 1 then 1 else qty) := by
          cases hc
          rfl
        rw [hq]
        constructor
        · split <;> omega
        · omega
  · simp [h1] at hc

/-- Witness for C1: a quantity-3 order against stock 5 commits with
quantity between 1 and 5. -/
theorem create_order_quantity_bounds_witness :
    1 ≤ MyApp.demoCommitted.quantity ∧
      MyApp.demoCommitted.quantity ≤ demoProduct.stock_quantity := by
  exact create_order_quantity_bounds demoStore 1 none "Иван" "+79001234567"
    none 3 "" demoProduct demoCommitted (by rfl) (by rfl)

/-- C6: placing an order never touches the product table (nor the user
table): whatever the outcome, the products after `create_order` are
byte-for-byte the products before, so stock is validated but never
decremented. -/
theorem create_order_preserves_products
    (s : Store) (pid : Nat) (cu : Option User) (name phone : String)
    (email : Option String) (qty : Int) (notes : String) :
    (create_order s pid cu name phone email qty notes).1.products = s.products ∧
    (create_order s pid cu name phone email qty notes).1.users = s.users := by
  unfold create_order
  cases findProduct s pid with
  | none => exact ⟨rfl, rfl⟩
  | some p =>
    dsimp only
    split_ifs <;> exact ⟨rfl, rfl⟩

/-- Counterexample to C7: against stock 5, a submitted quantity of 6 is
refused (`insufficientStock`), while the spec's clamping semantics
(`create_order_claimed`) would commit an order; the two operations
disagree at this input. -/
theorem create_order_clamp_counterexample :
    (create_order demoStore 1 none "Иван" "+79001234567" none 6 "").2 =
      .insufficientStock 5 ∧
    (create_order_claimed demoStore 1 none "Иван" "+79001234567" none 6 "").2 ≠
      (create_order demoStore 1 none "Иван" "+79001234567" none 6 "").2 := by
  decide

/-- C7 as amended: order placement clamps the requested quantity up to 1,
but does not clamp it down to stock: when the clamped quantity fits the
stock the order is committed with that quantity, and when it exceeds the
stock the request is refused with `insufficientStock`. -/
theorem create_order_clamps_low_rejects_high
    (s : Store) (pid : Nat) (cu : Option User) (name phone : String)
    (email : Option String) (qty : Int) (notes : String) (p : Product)
    (hp : findProduct s pid = some p) (hin : p.in_stock = true)
    (hn : (name == "" || phone == "") = false) :
    (p.stock_quantity < (if qty < 1 then 1 else qty) →
      create_order s pid cu name phone email qty notes =
        (s, .insufficientStock p.stock_quantity)) ∧
    ((if qty < 1 then 1 else qty) ≤ p.stock_quantity →
      ∃ o, (create_order s pid cu name phone email qty notes).2 = .created o ∧
        o.quantity = (if qty < 1 then 1 else qty)) := by
  unfold create_order
  rw [hp]
  simp only [hin, Bool.not_true, Bool.false_eq_true, if_false, hn]
  constructor
  · intro hlt
    simp [hlt]
  · intro hle
    have hnotlt : ¬ p.stock_quantity < (if qty < 1 then 1 else qty) := by omega
    simp [hnotlt]

/-- Witness for C7's amended theorem: at stock 5, quantity 2 commits with
quantity 2, quantity 7 is refused. -/
theorem create_order_clamps_low_rejects_high_witness :
    (demoProduct.stock_quantity < (if (7 : Int) < 1 then 1 else 7) →
      create_order demoStore 1 none "Иван" "+79001234567" none 7 "" =
        (demoStore, .insufficientStock demoProduct.stock_quantity)) ∧
    ((if (7 : Int) < 1 then 1 else 7) ≤ demoProduct.stock_quantity →
      ∃ o, (create_order demoStore 1 none "Иван" "+79001234567" none 7 "").2 =
        .created o ∧ o.quantity = (if (7 : Int) < 1 then 1 else 7)) := by
  exact create_order_clamps_low_rejects_high demoStore 1 none "Иван"
    "+79001234567" none 7 "" demoProduct (by rfl) (by rfl) (by rfl)

/-- C3: the admin delete-product operation, pointed at a product that at
least one order references, leaves the store untouched, reports the
blocking order count, and the product is still queryable afterward. -/
theorem delete_product_blocked_when_ordered
    (s : Store) (cu : User) (pid : Nat) (p : Product) (o : Order)
    (hadmin : cu.is_admin = true)
    (hp : findProduct s pid = some p)
    (ho : o ∈ s.orders) (hpid : o.product_id = pid) :
    (admin_delete_product s cu pid).1 = s ∧
    (∃ n, 0 < n ∧ (admin_delete_product s cu pid).2 = .blocked n) ∧
    findProduct (admin_delete_product s cu pid).1 pid = some p := by
  have hmem : o ∈ s.orders.filter (fun o => o.product_id == pid) :=
    List.mem_filter.mpr ⟨ho, by simp [hpid]⟩
  have hcount : 0 < (s.orders.filter (fun o => o.product_id == pid)).length :=
    List.length_pos.mpr (fun hnil => by simp [hnil] at hmem)
  unfold admin_delete_product
  rw [hp, if_neg (by rw [hadmin]; simp)]
  dsimp only
  rw [if_pos hcount]
  exact ⟨rfl, ⟨_, hcount, rfl⟩, hp⟩

/-- Witness for C3: deleting `demoProduct` while `demoOrder` references
it is blocked and the product stays queryable. -/
theorem delete_product_blocked_witness :
    (admin_delete_product demoStoreWithOrder demoUser 1).1 = demoStoreWithOrder ∧
    (∃ n, 0 < n ∧
      (admin_delete_product demoStoreWithOrder demoUser 1).2 = .blocked n) ∧
    findProduct (admin_delete_product demoStoreWithOrder demoUser 1).1 1 =
      some demoProduct := by
  exact delete_product_blocked_when_ordered demoStoreWithOrder demoUser 1
    demoProduct demoOrder (by rfl) (by rfl) (by decide) (by rfl)

/-- Membership through the `min_price` step. -/
theorem mem_applyMinPrice (mp : Option ℚ) (q : List Product) (p : Product) :
    p ∈ applyMinPrice mp q ↔
      p ∈ q ∧ (∀ v, mp = some v → v ≠ 0 → v ≤ p.price) := by
  cases mp with
  | none => simp [applyMinPrice]
  | some v =>
    by_cases hv : v = 0
    · subst hv
      simp [applyMinPrice]
    · simp [applyMinPrice, hv, List.mem_filter]

/-- Membership through the `max_price` step. -/
theorem mem_applyMaxPrice (mp : Option ℚ) (q : List Product) (p : Product) :
    p ∈ applyMaxPrice mp q ↔
      p ∈ q ∧ (∀ v, mp = some v → v ≠ 0 → p.price ≤ v) := by
  cases mp with
  | none => simp [applyMaxPrice]
  | some v =>
    by_cases hv : v = 0
    · subst hv
      simp [applyMaxPrice]
    · simp [applyMaxPrice, hv, List.mem_filter]

/-- Counterexample to C4: with every filter omitted, an inactive product
with positive stock is absent from the catalog — the route's `else`
branch restricts to active products even when the in-stock toggle is
omitted — while the spec's reading (`catalog_filter_claimed`) keeps it. -/
theorem catalog_filter_counterexample :
    catalog_filter [demoInactive] "" none none none = [] ∧
    catalog_filter_claimed [demoInactive] "" none none none = [demoInactive] := by
  decide

/-- C4 as amended: a product appears in the catalog iff it satisfies
every supplied filter AND the baseline activity restriction: a supplied
non-empty category, truthy price bounds and the in-stock toggle are
conjunctive; omitted category and price filters impose no constraint,
but even with the in-stock toggle omitted only active products appear. -/
theorem catalog_filter_mem (ps : List Product) (category : String)
    (mp xp : Option ℚ) (ist : Option String) (p : Product) :
    p ∈ catalog_filter ps category mp xp ist ↔
      (p ∈ ps ∧
       (category ≠ "" → p.category = some category) ∧
       (∀ v, mp = some v → v ≠ 0 → v ≤ p.price) ∧
       (∀ v, xp = some v → v ≠ 0 → p.price ≤ v) ∧
       (if ist = some "1" then p.is_active = true ∧ 0 < p.stock_quantity
        else p.is_active = true)) := by
  unfold catalog_filter
  by_cases hist : ist = some "1" <;>
    by_cases hc : category = "" <;>
      simp [hist, hc, List.mem_filter, mem_applyMinPrice, mem_applyMaxPrice,
        and_assoc]

/-- Status after the status step of the admin order endpoint. -/
theorem apply_status_update_status (ns : Option String) (o : Order) :
    (apply_status_update ns o).status =
      match ns with
      | some v => if v ≠ "" ∧ v ∈ validStatuses then v else o.status
      | none => o.status := by
  cases ns with
  | none => rfl
  | some v =>
    unfold apply_status_update
    dsimp only
    split_ifs <;> rfl

/-- The notes step never touches the status field. -/
theorem append_admin_note_status (now an : String) (o : Order) :
    (append_admin_note now an o).status = o.status := by
  unfold append_admin_note
  split_ifs with h
  · cases o.notes with
    | none => rfl
    | some n => dsimp only; split_ifs <;> rfl
  · rfl

/-- Every row of `update_first oid f l` is a row of `l` or the image of
one under `f`. -/
theorem mem_update_first (oid : Nat) (f : Order → Order) (l : List Order)
    (o' : Order) (hm : o' ∈ update_first oid f l) :
    o' ∈ l ∨ ∃ o ∈ l, o' = f o := by
  induction l with
  | nil => simp [update_first] at hm
  | cons a t ih =>
    unfold update_first at hm
    by_cases h : (a.id == oid) = true
    · rw [if_pos h] at hm
      rcases List.mem_cons.mp hm with h1 | h1
      · exact Or.inr ⟨a, List.mem_cons_self a t, h1⟩
      · exact Or.inl (List.mem_cons_of_mem a h1)
    · rw [if_neg h] at hm
      rcases List.mem_cons.mp hm with h1 | h1
      · exact Or.inl (by simp [h1])
      · rcases ih h1 with h2 | ⟨o, hom, he⟩
        · exact Or.inl (List.mem_cons_of_mem a h2)
        · exact Or.inr ⟨o, List.mem_cons_of_mem a hom, he⟩

/-- C8: every reachable order status comes from the fixed enumeration:
`create_order` commits status "новый" (a member of the enumeration), the
admin status step stores a submitted value exactly when it is in the
enumeration and otherwise leaves the status alone, and the full admin
order endpoint preserves the all-statuses-valid invariant. -/
theorem order_status_in_fixed_enumeration :
    (∀ s pid cu name phone email qty notes o,
        (create_order s pid cu name phone email qty notes).2 =
          CreateOrderResult.created o →
        o.status = "новый" ∧ "новый" ∈ validStatuses) ∧
    (∀ now ns an o, (update_order now ns an o).status =
        match ns with
        | some v => if v ≠ "" ∧ v ∈ validStatuses then v else o.status
        | none => o.status) ∧
    (∀ s cu oid ns an now,
        (∀ o ∈ s.orders, o.status ∈ validStatuses) →
        ∀ o ∈ (admin_order_detail s cu oid ns an now).orders,
          o.status ∈ validStatuses) := by
  refine ⟨?_, ?_, ?_⟩
  · intro s pid cu name phone email qty notes o hc
    unfold create_order at hc
    cases hfp : findProduct s pid with
    | none => rw [hfp] at hc; simp at hc
    | some p =>
      rw [hfp] at hc
      by_cases h1 : p.in_stock = true
      · simp only [h1, Bool.not_true, Bool.false_eq_true, if_false] at hc
        by_cases h2 : (name == "" || phone == "") = true
        · simp [h2] at hc
        · simp only [h2, Bool.false_eq_true, if_false] at hc
          by_cases h3 : p.stock_quantity < (if qty < 1 then 1 else qty)
          · simp [h3] at hc
          · simp only [h3, if_false] at hc
            refine ⟨?_, by decide⟩
            have : o.status = "новый" := by
              cases hc
              rfl
            exact this
      · simp [h1] at hc
  · intro now ns an o
    unfold update_order
    rw [append_admin_note_status, apply_status_update_status]
  · intro s cu oid ns an now hinv o hm
    unfold admin_order_detail at hm
    by_cases hadm : (!cu.is_admin) = true
    · rw [if_pos hadm] at hm
      exact hinv o hm
    · rw [if_neg hadm] at hm
      rcases mem_update_first oid _ s.orders o hm with h | ⟨o0, ho0, he⟩
      · exact hinv o h
      · subst he
        unfold update_order
        rw [append_admin_note_status, apply_status_update_status]
        cases ns with
        | none => exact hinv o0 ho0
        | some v =>
          dsimp only
          split_ifs with hv
          · exact hv.2
          · exact hinv o0 ho0

/-- Witness for C8: the §8 order carries status "новый", a member of the
enumeration. -/
theorem order_status_witness :
    demoCommitted.status = "новый" ∧ "новый" ∈ validStatuses := by
  exact order_status_in_fixed_enumeration.1 demoStore 1 none "Иван"
    "+79001234567" none 3 "" demoCommitted (by rfl)

/-- Counterexample to C9: the product-create upload path stores the
sanitized filename as-is — it computes no timestamp — so the stored name
differs from the timestamp-prefixed name the spec's rule would give. -/
theorem product_upload_no_timestamp_counterexample :
    product_create_image_field (fun f => f) (some "cat.png") =
      some "uploads/products/cat.png" ∧
    product_create_image_field (fun f => f) (some "cat.png") ≠
      some (claimed_upload_name "uploads/products/" (fun f => f)
        "20240101_120000" "cat.png") := by
  decide

/-- C9 as amended: of the four admin image-upload paths, news create,
news edit and product edit store a truthy upload under the upload
directory with the timestamp prefixed to the sanitized filename, while
product create stores just the sanitized filename with no timestamp. -/
theorem upload_image_fields_amended (sanitize : String → String) (ts f : String)
    (old : Option String) (hf : (f != "") = true) :
    news_create_image_field sanitize ts (some f) =
      some (claimed_upload_name "uploads/news/" sanitize ts f) ∧
    news_edit_image_field sanitize ts old (some f) =
      some (claimed_upload_name "uploads/news/" sanitize ts f) ∧
    product_edit_image_field sanitize ts old (some f) =
      some (claimed_upload_name "uploads/products/" sanitize ts f) ∧
    product_create_image_field sanitize (some f) =
      some ("uploads/products/" ++ sanitize f) := by
  unfold news_create_image_field news_edit_image_field
    product_edit_image_field product_create_image_field claimed_upload_name
  simp [hf]

/-- Witness for C9's amended theorem at a concrete upload. -/
theorem upload_image_fields_amended_witness :
    news_create_image_field (fun x => x) "20240101_120000" (some "cat.png") =
      some (claimed_upload_name "uploads/news/" (fun x => x)
        "20240101_120000" "cat.png") ∧
    news_edit_image_field (fun x => x) "20240101_120000" none (some "cat.png") =
      some (claimed_upload_name "uploads/news/" (fun x => x)
        "20240101_120000" "cat.png") ∧
    product_edit_image_field (fun x => x) "20240101_120000" none
        (some "cat.png") =
      some (claimed_upload_name "uploads/products/" (fun x => x)
        "20240101_120000" "cat.png") ∧
    product_create_image_field (fun x => x) (some "cat.png") =
      some ("uploads/products/" ++ "cat.png") := by
  exact upload_image_fields_amended (fun x => x) "20240101_120000" "cat.png"
    none (by decide)

/-- C10: a failed login — username unknown, or username known but the
password check fails — yields the one same observable outcome: no
session, the same failure flash, the login page re-rendered; the two
causes are indistinguishable to the requester. -/
theorem login_failure_indistinguishable (checkHash : String → String → Bool)
    (s : Store) (username password : String)
    (h : findUserByUsername s username = none ∨
         ∃ u, findUserByUsername s username = some u ∧
              checkHash u.password_hash password = false) :
    login checkHash s none username password =
      .failed "Неверное имя пользователя или пароль" := by
  unfold login
  rcases h with h | ⟨u, hu, hcp⟩
  · rw [h]
  · rw [hu]
    simp [hcp]

/-- Witness for C10: against a store holding only the user "admin", the
unknown username "ghost" and the wrong password for "admin" produce the
identical failure outcome. -/
theorem login_failure_witness :
    login (fun h p => h == ("hash:" ++ p)) demoStoreWithOrder none
        "ghost" "admin123" =
      .failed "Неверное имя пользователя или пароль" ∧
    login (fun h p => h == ("hash:" ++ p)) demoStoreWithOrder none
        "admin" "wrong" =
      .failed "Неверное имя пользователя или пароль" := by
  constructor
  · exact login_failure_indistinguishable _ _ _ _ (Or.inl (by decide))
  · exact login_failure_indistinguishable _ _ _ _
      (Or.inr ⟨demoUser, by decide, by decide⟩)

end MyApp
